import Mathlib

/-!
Verification of the oposs_zpool_iostat check plugin
(src/local/lib/python3/cmk_addons/plugins/oposs_zpool_iostat/agent_based/oposs_zpool_iostat.py).

The Python code is shallowly embedded: numeric values (Python floats/ints
arriving through JSON) are modelled as rationals, Python None is modelled by
Option, the generator-style check functions are modelled as functions
returning the list of yielded objects, and Python dicts are modelled as
association lists with dict-assignment insert semantics (replace in place if
the key exists, append otherwise).
-/

/-- A numeric value as carried by a CheckMK metric. Python floats are
modelled as rationals; the value produced by the Python expression
float(nan) is modelled by the distinguished constructor nan
(like the IEEE NaN, it is distinct from every number, in particular 0). -/
inductive Val where
  | num (q : ℚ)
  | nan
deriving DecidableEq, Repr

/-- CheckMK monitoring states (cmk.agent_based.v2.State). -/
inductive CheckSt where
  | OK
  | WARN
  | CRIT
  | UNKNOWN
deriving DecidableEq, Repr

/-- A cmk.agent_based.v2.Result: a monitoring state plus a summary line. -/
structure CmkResult where
  state : CheckSt
  summary : String
deriving DecidableEq, Repr

/-- A cmk.agent_based.v2.Metric: a named data point for graphing. -/
structure MetricData where
  name : String
  value : Val
deriving DecidableEq, Repr

/-- One object yielded by a CheckMK check function: a Result or a Metric. -/
inductive Output where
  | res (r : CmkResult)
  | met (m : MetricData)
deriving DecidableEq, Repr

/-- A levels parameter as produced by the SimpleLevels ruleset form:
Python None (npar), a tuple ("fixed", (warn, crit)) (fixedL), or some other
shape such as predictive / no_levels tuples (otherL, identified by its tag). -/
inductive LevelsParam where
  | npar
  | fixedL (warn crit : ℚ)
  | otherL (tag : String)
deriving DecidableEq, Repr

/-- Python truthiness of a levels parameter: None is falsy, every non-empty
tuple is truthy. -/
def LevelsParam.truthy : LevelsParam → Bool
  | .npar => false
  | _ => true

/-- Modelled from the spec: cmk.agent_based.v2.check_levels is framework
code, not part of this repository. For fixed upper levels it classifies
value at or above crit as CRIT, else at or above warn as WARN, else OK;
with no usable levels it returns OK. The repository only ever passes
levels_upper, so only upper bounds appear here. -/
def levelsStateUpper (value : ℚ) : LevelsParam → CheckSt
  | .fixedL warn crit =>
      if value ≥ crit then .CRIT
      else if value ≥ warn then .WARN
      else .OK
  | _ => .OK

/-- Modelled from the spec: cmk.agent_based.v2.check_levels (framework code,
not in src/). It yields one Result carrying the classification state and a
rendered summary line, followed by one Metric with the checked value. -/
def check_levels (value : ℚ) (levels_upper : LevelsParam)
    (metric_name label : String) (render_func : ℚ → String) : List Output :=
  [ .res ⟨levelsStateUpper value levels_upper, label ++ ": " ++ render_func value⟩,
    .met ⟨metric_name, .num value⟩ ]

/-- Floor of a rational, computed on the numerator and denominator. -/
def qfloor (q : ℚ) : ℤ := Int.fdiv q.num q.den

/-- Left-pad a numeral string with zeros to the given width. -/
def padZeros (s : String) (w : ℕ) : String :=
  if s.length ≥ w then s
  else String.mk (List.replicate (w - s.length) '0') ++ s

/-- Fixed-point decimal rendering of a rational with the given number of
decimal places, approximating Python string formatting (Python rounds
half-even on binary floats; half-up rounding is used here — no claim
inspects these rendered strings). -/
def fmtFixed (prec : ℕ) (q : ℚ) : String :=
  let p : ℤ := 10 ^ prec
  let n : ℤ := qfloor (q * (p : ℚ) + 1/2)
  if prec = 0 then toString n
  else toString (n / p) ++ "." ++ padZeros (toString (n % p).natAbs) prec

/-- _render_operations_per_second from the source. -/
def _render_operations_per_second (value : ℚ) : String :=
  fmtFixed 1 value ++ "/s"

/-- _render_milliseconds from the source: the value is in seconds and is
displayed in milliseconds with two decimals. -/
def _render_milliseconds (value : ℚ) : String :=
  fmtFixed 2 (value * 1000) ++ "ms"

/-- _render_count from the source. -/
def _render_count (value : ℚ) : String :=
  fmtFixed 0 value

/-- Modelled from the spec: cmk.agent_based.v2.render.percent (framework
code, not in src/), rendering a percentage. -/
def renderPercent (value : ℚ) : String :=
  fmtFixed 2 value ++ "%"

/-- Modelled from the spec: cmk.agent_based.v2.render.bytes (framework
code, not in src/); the exact humanized form is irrelevant to every claim. -/
def renderBytes (value : ℚ) : String :=
  fmtFixed 0 value ++ " B"

/-- _convert_ms_levels_to_seconds from the source: fixed millisecond levels
are divided by 1000 into seconds; None maps to None and any other shape is
returned as-is. -/
def _convert_ms_levels_to_seconds : LevelsParam → LevelsParam
  | .npar => .npar
  | .fixedL warn crit => .fixedL (warn / 1000) (crit / 1000)
  | .otherL tag => .otherL tag

/-- _check_wait_time_metric from the source. value_ns is the raw counter in
nanoseconds (none when the key is missing from the pool data). A missing
value yields only a NaN metric; a present value is converted to seconds and
either checked against the (millisecond-configured) levels or emitted as a
bare metric. -/
def _check_wait_time_metric (value_ns : Option ℚ) (levels_param : LevelsParam)
    (metric_name label : String) : List Output :=
  match value_ns with
  | none => [.met ⟨metric_name ++ "_s", .nan⟩]
  | some v =>
      let value_s : ℚ := if v ≠ 0 then v / 1000000000 else 0
      if levels_param.truthy then
        check_levels value_s (_convert_ms_levels_to_seconds levels_param)
          (metric_name ++ "_s") label _render_milliseconds
      else
        [.met ⟨metric_name ++ "_s", .num value_s⟩]

/-- The result of Python json.loads on one payload string. json.loads is
Python standard library, external to the repository, so it is modelled as an
explicit decoder argument of the parser: a payload decodes to a dict, to
some valid JSON value that is not a dict, or fails with an error message.
Dict payloads are restricted to the string-keyed numeric counters the check
reads; the numbers are modelled as rationals. -/
inductive Decoded where
  | dict (d : List (String × ℚ))
  | nondict
  | fail (emsg : String)
deriving DecidableEq, Repr

/-- Per-pool data as stored by parse_oposs_zpool_iostat: either the decoded
counters dict, or a dict holding the single key _error with the recorded
message (the errored constructor). -/
inductive PoolData where
  | ok (counters : List (String × ℚ))
  | errored (msg : String)
deriving DecidableEq, Repr

/-- A value of the parsed-section dict: pool names map to pool data, while
the reserved key _parse_error maps to a raw message string. -/
inductive Entry where
  | epool (d : PoolData)
  | estr (s : String)
deriving DecidableEq, Repr

/-- The parsed section: a Python dict modelled as an association list. -/
abbrev Sect := List (String × Entry)

/-- Python dict lookup on an association list: the value at the first
occurrence of the key, none when the key is absent. -/
def dictLookup {α : Type} (k : String) : List (String × α) → Option α
  | [] => none
  | (k1, v) :: rest => if k = k1 then some v else dictLookup k rest

/-- Python dict assignment on an association list: replace the value in
place if the key is present, append the pair otherwise. -/
def dictInsert (k : String) (v : Entry) : Sect → Sect
  | [] => [(k, v)]
  | (k1, v1) :: rest =>
      if k1 = k then (k, v) :: rest else (k1, v1) :: dictInsert k v rest

/-- One iteration of the parse loop of parse_oposs_zpool_iostat. Lines of
fewer than two fields are skipped. An ERROR line records its second field
under the reserved _parse_error key (the source fallback message for a
missing second field is unreachable once the length guard has passed).
Otherwise the payload is decoded: a dict is stored for the pool, a valid
non-dict marks the pool with an Invalid JSON structure error, and a decode
failure marks it with a JSON parsing failed message. -/
def parseLine (jsonLoads : String → Decoded) (pools : Sect) (line : List String) : Sect :=
  match line with
  | ident :: payload :: _ =>
      if ident = "ERROR" then dictInsert "_parse_error" (.estr payload) pools
      else
        match jsonLoads payload with
        | .dict d => dictInsert ident (.epool (.ok d)) pools
        | .nondict => dictInsert ident (.epool (.errored "Invalid JSON structure")) pools
        | .fail e => dictInsert ident (.epool (.errored ("JSON parsing failed: " ++ e))) pools
  | _ => pools

/-- parse_oposs_zpool_iostat from the source: fold the parse loop over the
agent string table, starting from an empty dict. -/
def parse_oposs_zpool_iostat (jsonLoads : String → Decoded)
    (string_table : List (List String)) : Sect :=
  string_table.foldl (parseLine jsonLoads) []

/-- The Python method str.startswith: a prefix test, computed on the
character lists of the two strings. -/
def pyStartswith (s p : String) : Bool :=
  List.isPrefixOf p.data s.data

/-- The per-entry condition of discover_oposs_zpool_iostat: a service is
emitted for an entry whose key does not start with an underscore, whose
value is a dict, and whose dict has no _error key. -/
def discoverEntry (pe : String × Entry) : Option String :=
  if pyStartswith pe.1 "_" then none
  else
    match pe.2 with
    | .epool (.ok _) => some pe.1
    | _ => none

/-- discover_oposs_zpool_iostat from the source: one service per section
entry passing the discovery condition. -/
def discover_oposs_zpool_iostat (sec : Sect) : List String :=
  sec.filterMap discoverEntry

/-- The check parameters: one field per key the check reads with
params.get; the npar value models both an absent key and an explicit None. -/
structure Params where
  storage_levels : LevelsParam := .npar
  read_ops_levels : LevelsParam := .npar
  write_ops_levels : LevelsParam := .npar
  read_throughput_levels : LevelsParam := .npar
  write_throughput_levels : LevelsParam := .npar
  read_wait_levels : LevelsParam := .npar
  write_wait_levels : LevelsParam := .npar
  disk_wait_levels : LevelsParam := .npar
  syncq_read_wait_levels : LevelsParam := .npar
  syncq_write_wait_levels : LevelsParam := .npar
  asyncq_read_wait_levels : LevelsParam := .npar
  asyncq_write_wait_levels : LevelsParam := .npar
  scrub_wait_levels : LevelsParam := .npar
  trim_wait_levels : LevelsParam := .npar
  rebuild_wait_levels : LevelsParam := .npar
  syncq_read_pend_levels : LevelsParam := .npar
  syncq_read_activ_levels : LevelsParam := .npar
  syncq_write_pend_levels : LevelsParam := .npar
  syncq_write_activ_levels : LevelsParam := .npar
  asyncq_read_pend_levels : LevelsParam := .npar
  asyncq_read_activ_levels : LevelsParam := .npar
  asyncq_write_pend_levels : LevelsParam := .npar
  asyncq_write_activ_levels : LevelsParam := .npar
  scrubq_read_pend_levels : LevelsParam := .npar
  scrubq_read_activ_levels : LevelsParam := .npar
  trimq_write_pend_levels : LevelsParam := .npar
  trimq_write_activ_levels : LevelsParam := .npar
  rebuildq_write_pend_levels : LevelsParam := .npar
  rebuildq_write_activ_levels : LevelsParam := .npar

/-- check_default_parameters from the source: fixed storage levels of 80
and 90 percent, every other levels entry None. -/
def check_default_parameters : Params :=
  { storage_levels := .fixedL 80 90 }

/-- The Python expression metric_name.replace underscore-with-space
followed by .title(), used for queue depth labels. -/
def pyTitle (s : String) : String :=
  String.intercalate " " (((s.replace "_" " ").splitOn " ").map String.capitalize)

/-- The loop body over queue_depth_metrics in check_oposs_zpool_iostat: a
missing value yields a NaN metric; a present value is checked against
truthy levels or emitted as a bare metric. -/
def checkQueueDepthMetric (value : Option ℚ) (levels_param : LevelsParam)
    (metric_name : String) : List Output :=
  match value with
  | none => [.met ⟨metric_name, .nan⟩]
  | some v =>
      if levels_param.truthy then
        check_levels v levels_param metric_name (pyTitle metric_name) _render_count
      else [.met ⟨metric_name, .num v⟩]

/-- The combined disk wait block of check_oposs_zpool_iostat: with truthy
disk_wait_levels and both disk wait counters present, the maximum of the two
is checked through _check_wait_time_metric, and only when it is positive. -/
def diskWaitCompositeBlock (disk_wait_levels : LevelsParam)
    (d : List (String × ℚ)) : List Output :=
  if disk_wait_levels.truthy then
    match dictLookup "disk_read_wait" d, dictLookup "disk_write_wait" d with
    | some r, some w =>
        if max r w > 0 then
          _check_wait_time_metric (some (max r w)) disk_wait_levels
            "disk_wait_max" "Disk wait time"
        else []
    | _, _ => []
  else []

/-- The storage-capacity block of check_oposs_zpool_iostat: when
alloc + free is positive, the utilization percentage is checked against the
storage levels (check_levels runs whether or not levels are configured);
otherwise nothing is emitted. The boundaries argument of the source only
annotates the metric and is omitted (no claim inspects it). -/
def storageBlock (storage_levels : LevelsParam) (alloc free : ℚ) : List Output :=
  if alloc + free > 0 then
    check_levels (alloc / (alloc + free) * 100) storage_levels
      "storage_used_percent" "Storage utilization" renderPercent
  else []

/-- The body of check_oposs_zpool_iostat for a pool whose data dict d
decoded cleanly (after the three error branches). Option.getD 0 models
pool_data.get(key, 0); a plain dictLookup models pool_data.get(key). The
local variables of the source (read_ops, write_ops, read_bytes,
write_bytes, alloc, free, total) are pure and used as-is, so they are
inlined here. -/
def checkPoolBody (params : Params) (d : List (String × ℚ)) : List Output :=
  storageBlock params.storage_levels
    ((dictLookup "alloc" d).getD 0) ((dictLookup "free" d).getD 0)
  ++ (if params.read_ops_levels.truthy then
        check_levels ((dictLookup "read_ops" d).getD 0) params.read_ops_levels "read_ops"
          "Read operations" _render_operations_per_second
      else [.met ⟨"read_ops", .num ((dictLookup "read_ops" d).getD 0)⟩])
  ++ (if params.write_ops_levels.truthy then
        check_levels ((dictLookup "write_ops" d).getD 0) params.write_ops_levels "write_ops"
          "Write operations" _render_operations_per_second
      else [.met ⟨"write_ops", .num ((dictLookup "write_ops" d).getD 0)⟩])
  ++ (if params.read_throughput_levels.truthy then
        check_levels ((dictLookup "read_bytes" d).getD 0) params.read_throughput_levels
          "read_throughput" "Read throughput" renderBytes
      else [.met ⟨"read_throughput", .num ((dictLookup "read_bytes" d).getD 0)⟩])
  ++ (if params.write_throughput_levels.truthy then
        check_levels ((dictLookup "write_bytes" d).getD 0) params.write_throughput_levels
          "write_throughput" "Write throughput" renderBytes
      else [.met ⟨"write_throughput", .num ((dictLookup "write_bytes" d).getD 0)⟩])
  ++ [.met ⟨"allocated", .num ((dictLookup "alloc" d).getD 0)⟩,
      .met ⟨"free", .num ((dictLookup "free" d).getD 0)⟩]
  ++ _check_wait_time_metric (dictLookup "read_wait" d)
      params.read_wait_levels "read_wait" "Read wait time"
  ++ _check_wait_time_metric (dictLookup "write_wait" d)
      params.write_wait_levels "write_wait" "Write wait time"
  ++ _check_wait_time_metric (dictLookup "disk_read_wait" d)
      .npar "disk_read_wait" "Disk read wait time"
  ++ _check_wait_time_metric (dictLookup "disk_write_wait" d)
      .npar "disk_write_wait" "Disk write wait time"
  ++ diskWaitCompositeBlock params.disk_wait_levels d
  ++ _check_wait_time_metric (dictLookup "syncq_read_wait" d)
      params.syncq_read_wait_levels "syncq_read_wait" "Sync Queue Read Wait"
  ++ _check_wait_time_metric (dictLookup "syncq_write_wait" d)
      params.syncq_write_wait_levels "syncq_write_wait" "Sync Queue Write Wait"
  ++ _check_wait_time_metric (dictLookup "asyncq_read_wait" d)
      params.asyncq_read_wait_levels "asyncq_read_wait" "Async Queue Read Wait"
  ++ _check_wait_time_metric (dictLookup "asyncq_write_wait" d)
      params.asyncq_write_wait_levels "asyncq_write_wait" "Async Queue Write Wait"
  ++ _check_wait_time_metric (dictLookup "scrub_wait" d)
      params.scrub_wait_levels "scrub_wait" "Scrub Wait"
  ++ _check_wait_time_metric (dictLookup "trim_wait" d)
      params.trim_wait_levels "trim_wait" "Trim Wait"
  ++ _check_wait_time_metric (dictLookup "rebuild_wait" d)
      params.rebuild_wait_levels "rebuild_wait" "Rebuild Wait"
  ++ checkQueueDepthMetric (dictLookup "syncq_read_pend" d)
      params.syncq_read_pend_levels "syncq_read_pend"
  ++ checkQueueDepthMetric (dictLookup "syncq_read_activ" d)
      params.syncq_read_activ_levels "syncq_read_activ"
  ++ checkQueueDepthMetric (dictLookup "syncq_write_pend" d)
      params.syncq_write_pend_levels "syncq_write_pend"
  ++ checkQueueDepthMetric (dictLookup "syncq_write_activ" d)
      params.syncq_write_activ_levels "syncq_write_activ"
  ++ checkQueueDepthMetric (dictLookup "asyncq_read_pend" d)
      params.asyncq_read_pend_levels "asyncq_read_pend"
  ++ checkQueueDepthMetric (dictLookup "asyncq_read_activ" d)
      params.asyncq_read_activ_levels "asyncq_read_activ"
  ++ checkQueueDepthMetric (dictLookup "asyncq_write_pend" d)
      params.asyncq_write_pend_levels "asyncq_write_pend"
  ++ checkQueueDepthMetric (dictLookup "asyncq_write_activ" d)
      params.asyncq_write_activ_levels "asyncq_write_activ"
  ++ checkQueueDepthMetric (dictLookup "scrubq_read_pend" d)
      params.scrubq_read_pend_levels "scrubq_read_pend"
  ++ checkQueueDepthMetric (dictLookup "scrubq_read_activ" d)
      params.scrubq_read_activ_levels "scrubq_read_activ"
  ++ checkQueueDepthMetric (dictLookup "trimq_write_pend" d)
      params.trimq_write_pend_levels "trimq_write_pend"
  ++ checkQueueDepthMetric (dictLookup "trimq_write_activ" d)
      params.trimq_write_activ_levels "trimq_write_activ"
  ++ checkQueueDepthMetric (dictLookup "rebuildq_write_pend" d)
      params.rebuildq_write_pend_levels "rebuildq_write_pend"
  ++ checkQueueDepthMetric (dictLookup "rebuildq_write_activ" d)
      params.rebuildq_write_activ_levels "rebuildq_write_activ"

/-- The interpolation of a section value into the parse-error summary.
Python would interpolate the str() of the value; from parser output the
reserved key only ever maps to a raw string, so the dict rendering is a
fixed placeholder that no claim (and no reachable input) inspects. -/
def Entry.interp : Entry → String
  | .estr s => s
  | .epool _ => "pool data dict"

/-- check_oposs_zpool_iostat from the source. The three error branches
short-circuit in order: a recorded global parse error, an item missing from
the section, and a per-pool decode error. The final match arm (a raw string
stored under a non-reserved key) is unreachable from parser output — only
the reserved _parse_error key maps to a raw string and the first branch
consumes it; Python would raise a TypeError there. -/
def check_oposs_zpool_iostat (item : String) (params : Params) (sec : Sect) :
    List Output :=
  match dictLookup "_parse_error" sec with
  | some e => [.res ⟨.UNKNOWN, "Parse error: " ++ e.interp⟩]
  | none =>
      match dictLookup item sec with
      | none => [.res ⟨.UNKNOWN, "Pool " ++ item ++ " not found"⟩]
      | some (.epool (.errored m)) =>
          [.res ⟨.UNKNOWN, "Pool " ++ item ++ " error: " ++ m⟩]
      | some (.epool (.ok d)) => checkPoolBody params d
      | some (.estr _) => []

/-- The value of the first metric with the given name in an output list. -/
def metricValueOf (os : List Output) (name : String) : Option Val :=
  match os with
  | [] => none
  | .met m :: rest => if m.name = name then some m.value else metricValueOf rest name
  | .res _ :: rest => metricValueOf rest name

/-- The state of the first Result in an output list. -/
def firstResultState (os : List Output) : Option CheckSt :=
  match os with
  | [] => none
  | .res r :: _ => some r.state
  | .met _ :: rest => firstResultState rest

/-- A JSON payload string for the empty object (braces written as hex
escapes). -/
def jsonEmpty : String := "\x7b\x7d"

/-- A JSON payload string with both disk wait counters at zero. -/
def jsonZeroDiskWaits : String :=
  "\x7b\"disk_read_wait\": 0, \"disk_write_wait\": 0\x7d"

/-- A JSON payload string for scenario A of the spec: alloc 800, free 200,
read_ops 50. -/
def jsonScenarioA : String :=
  "\x7b\"alloc\": 800, \"free\": 200, \"read_ops\": 50\x7d"

/-- A concrete decoder standing in for json.loads on the payload strings the
witnesses use: the literal not-json fails to decode, the JSON object
payloads above decode to the corresponding dicts, anything else is treated
as valid non-dict JSON. -/
def egDecode : String → Decoded := fun s =>
  if s = "not-json" then .fail "Expecting value"
  else if s = jsonEmpty then .dict []
  else if s = jsonZeroDiskWaits then
    .dict [("disk_read_wait", 0), ("disk_write_wait", 0)]
  else if s = jsonScenarioA then
    .dict [("alloc", 800), ("free", 200), ("read_ops", 50)]
  else .nondict

/-- A section parsed from a batch holding one valid pool and an ERROR line. -/
def secC4 : Sect :=
  parse_oposs_zpool_iostat egDecode [["tank", jsonEmpty], ["ERROR", "disk timeout"]]

/-- Parameters with only the combined disk wait levels configured. -/
def pC2 : Params := { disk_wait_levels := .fixedL 1 2 }

/-- A section whose only pool carries both disk wait counters at zero. -/
def secC2 : Sect := parse_oposs_zpool_iostat egDecode [["tank", jsonZeroDiskWaits]]

/-- Parameters with no levels configured at all. -/
def pNone : Params := {}

/-- A section whose only pool decoded to an empty counters dict. -/
def secC3 : Sect := parse_oposs_zpool_iostat egDecode [["tank", jsonEmpty]]

/-- The parsed section of scenario A of the spec. -/
def secC7 : Sect := parse_oposs_zpool_iostat egDecode [["tank", jsonScenarioA]]

/-- C1: with a fixed pair (warn, crit), warn ≤ crit, the classification is
CRIT iff value ≥ crit, WARN iff warn ≤ value < crit, OK iff value < warn;
equality counts as the higher severity and only upper bounds are checked. -/
theorem C1_fixed_threshold_classification (v warn crit : ℚ) (h : warn ≤ crit) :
    ((levelsStateUpper v (.fixedL warn crit) = .CRIT) ↔ crit ≤ v) ∧
    ((levelsStateUpper v (.fixedL warn crit) = .WARN) ↔ warn ≤ v ∧ v < crit) ∧
    ((levelsStateUpper v (.fixedL warn crit) = .OK) ↔ v < warn) := by
  simp only [levelsStateUpper]
  split_ifs with h1 h2
  · exact ⟨iff_of_true rfl h1,
      iff_of_false id (fun hx => absurd hx.2 (not_lt.mpr h1)),
      iff_of_false id (fun hx => absurd (lt_of_lt_of_le hx h) (not_lt.mpr h1))⟩
  · exact ⟨iff_of_false id h1,
      iff_of_true rfl ⟨h2, not_le.mp h1⟩,
      iff_of_false id (fun hx => absurd hx (not_lt.mpr h2))⟩
  · exact ⟨iff_of_false id h1,
      iff_of_false id (fun hx => absurd hx.1 h2),
      iff_of_true rfl (not_le.mp h2)⟩

/-- Witness for C1 at value 3, warn 3, crit 7: equality with warn gives WARN. -/
theorem C1_fixed_threshold_classification_witness :
    (levelsStateUpper 3 (.fixedL 3 7) = .WARN) ↔ (3:ℚ) ≤ 3 ∧ (3:ℚ) < 7 :=
  (C1_fixed_threshold_classification 3 3 7 (by norm_num)).2.1

/-- C8: fixed millisecond levels are converted to seconds by dividing warn
and crit by 1000; a missing (None) or non-fixed levels parameter is passed
through unconverted. -/
theorem C8_ms_levels_to_seconds (warn crit : ℚ) (tag : String) :
    _convert_ms_levels_to_seconds (.fixedL warn crit) = .fixedL (warn / 1000) (crit / 1000) ∧
    _convert_ms_levels_to_seconds .npar = .npar ∧
    _convert_ms_levels_to_seconds (.otherL tag) = .otherL tag :=
  ⟨rfl, rfl, rfl⟩

/-- C6: a present wait-time counter v ≥ 0 is emitted normalized to
v / 1e9 seconds; an exact raw 0 normalizes to 0 (not treated as missing);
an absent counter is emitted as the NaN sentinel, which is distinct from
the number 0. -/
theorem C6_wait_time_normalization (v : ℚ) (lp : LevelsParam)
    (metric_name label : String) (h : 0 ≤ v) :
    metricValueOf (_check_wait_time_metric (some v) lp metric_name label)
        (metric_name ++ "_s") = some (.num (v / 1000000000)) ∧
    metricValueOf (_check_wait_time_metric (some 0) lp metric_name label)
        (metric_name ++ "_s") = some (.num 0) ∧
    _check_wait_time_metric none lp metric_name label
        = [.met ⟨metric_name ++ "_s", .nan⟩] ∧
    Val.nan ≠ Val.num 0 := by
  have hval : ∀ w : ℚ, (if w ≠ 0 then w / 1000000000 else 0) = w / 1000000000 := by
    intro w
    by_cases hw : w = 0
    · simp [hw]
    · simp [hw]
  have hemit : ∀ w : ℚ,
      metricValueOf (_check_wait_time_metric (some w) lp metric_name label)
        (metric_name ++ "_s") = some (.num (w / 1000000000)) := by
    intro w
    cases lp with
    | npar => simp [_check_wait_time_metric, LevelsParam.truthy, metricValueOf, hval]
    | fixedL a b =>
        simp [_check_wait_time_metric, LevelsParam.truthy, check_levels, metricValueOf, hval]
    | otherL t =>
        simp [_check_wait_time_metric, LevelsParam.truthy, check_levels, metricValueOf, hval]
  refine ⟨hemit v, ?_, rfl, by simp⟩
  have h0 : (0:ℚ) / 1000000000 = 0 := by norm_num
  rw [hemit 0, h0]

/-- Witness for C6 at v = 3 with no levels configured. -/
theorem C6_wait_time_normalization_witness :
    metricValueOf (_check_wait_time_metric (some 3) .npar "read_wait" "Read wait time")
        ("read_wait" ++ "_s") = some (.num (3 / 1000000000)) :=
  (C6_wait_time_normalization 3 .npar "read_wait" "Read wait time" (by norm_num)).1

/-- Looking a key up after a dict assignment: the assigned key yields the
new value, every other key is unaffected. -/
theorem lookup_dictInsert (k2 k : String) (v : Entry) (s : Sect) :
    dictLookup k2 (dictInsert k v s) = if k2 = k then some v else dictLookup k2 s := by
  induction s with
  | nil => simp [dictInsert, dictLookup]
  | cons p rest ih =>
      obtain ⟨k1, v1⟩ := p
      by_cases h1 : k1 = k
      · subst h1
        by_cases h2 : k2 = k1 <;> simp [dictInsert, dictLookup, h2]
      · by_cases h2 : k2 = k1
        · subst h2
          have hne : ¬ k2 = k := h1
          simp [dictInsert, dictLookup, h1, hne]
        · simp [dictInsert, dictLookup, h1, h2, ih]

/-- The check function reads the section only through the reserved
_parse_error key and the checked item. -/
theorem check_congr (item : String) (params : Params) (s1 s2 : Sect)
    (h1 : dictLookup "_parse_error" s1 = dictLookup "_parse_error" s2)
    (h2 : dictLookup item s1 = dictLookup item s2) :
    check_oposs_zpool_iostat item params s1 = check_oposs_zpool_iostat item params s2 := by
  unfold check_oposs_zpool_iostat
  rw [h1, h2]

/-- One parse-loop step inserts a key and value that depend only on the
line, so two accumulators that agree outside a key keep agreeing. -/
theorem parseLine_agree (jl : String → Decoded) (l : List String) (k : String)
    (a b : Sect) (hab : ∀ k2, k2 ≠ k → dictLookup k2 a = dictLookup k2 b) :
    ∀ k2, k2 ≠ k → dictLookup k2 (parseLine jl a l) = dictLookup k2 (parseLine jl b l) := by
  intro k2 hk2
  match l with
  | [] => exact hab k2 hk2
  | [x] => exact hab k2 hk2
  | ident :: payload :: rest =>
      simp only [parseLine]
      by_cases hid : ident = "ERROR"
      · rw [if_pos hid, if_pos hid, lookup_dictInsert, lookup_dictInsert]
        split_ifs with h
        · rfl
        · exact hab k2 hk2
      · rw [if_neg hid, if_neg hid]
        cases jl payload with
        | dict d =>
            rw [lookup_dictInsert, lookup_dictInsert]
            split_ifs with h
            · rfl
            · exact hab k2 hk2
        | nondict =>
            rw [lookup_dictInsert, lookup_dictInsert]
            split_ifs with h
            · rfl
            · exact hab k2 hk2
        | fail e =>
            rw [lookup_dictInsert, lookup_dictInsert]
            split_ifs with h
            · rfl
            · exact hab k2 hk2

/-- Folding the parse loop over the same lines preserves agreement of two
accumulators outside a key. -/
theorem foldl_parseLine_agree (jl : String → Decoded) (st : List (List String)) (k : String) :
    ∀ a b : Sect, (∀ k2, k2 ≠ k → dictLookup k2 a = dictLookup k2 b) →
      ∀ k2, k2 ≠ k →
        dictLookup k2 (st.foldl (parseLine jl) a) = dictLookup k2 (st.foldl (parseLine jl) b) := by
  induction st with
  | nil => intro a b hab k2 hk2; exact hab k2 hk2
  | cons l st ih =>
      intro a b hab k2 hk2
      exact ih (parseLine jl a l) (parseLine jl b l) (parseLine_agree jl l k a b hab) k2 hk2

/-- Folding the parse loop over lines that never carry a given pool name
(and the name is not the reserved key) leaves that lookup unchanged. -/
theorem lookup_foldl_parseLine_skip (jl : String → Decoded) (st : List (List String))
    (k : String) (hk : k ≠ "_parse_error") :
    ∀ acc : Sect, (∀ ident payload rest, (ident :: payload :: rest) ∈ st → ident ≠ k) →
      dictLookup k (st.foldl (parseLine jl) acc) = dictLookup k acc := by
  induction st with
  | nil => intro acc _; rfl
  | cons l st ih =>
      intro acc hst
      have hstep : dictLookup k (parseLine jl acc l) = dictLookup k acc := by
        match l with
        | [] => rfl
        | [x] => rfl
        | ident :: payload :: rest =>
            have hident : ¬ k = ident :=
              fun h => (hst ident payload rest (List.mem_cons_self _ _)) h.symm
            simp only [parseLine]
            by_cases hid : ident = "ERROR"
            · rw [if_pos hid, lookup_dictInsert, if_neg hk]
            · rw [if_neg hid]
              cases jl payload with
              | dict d => rw [lookup_dictInsert, if_neg hident]
              | nondict => rw [lookup_dictInsert, if_neg hident]
              | fail e => rw [lookup_dictInsert, if_neg hident]
      rw [List.foldl_cons,
        ih (parseLine jl acc l) (fun i p r hm => hst i p r (List.mem_cons_of_mem _ hm)),
        hstep]

/-- C4: with a global parse error recorded in the section, every check
invocation for every item returns the single UNKNOWN result whose summary
carries the collected message verbatim, and no per-pool evaluation takes
place; an ERROR raw entry is what records that message under the reserved
_parse_error key. -/
theorem C4_global_parse_error (item : String) (params : Params)
    (jl : String → Decoded) (st : List (List String)) (emsg : String)
    (sec : Sect) (msg : String)
    (hsec : dictLookup "_parse_error" sec = some (.estr msg)) :
    check_oposs_zpool_iostat item params sec
        = [.res ⟨.UNKNOWN, "Parse error: " ++ msg⟩] ∧
    dictLookup "_parse_error" (parse_oposs_zpool_iostat jl (st ++ [["ERROR", emsg]]))
        = some (.estr emsg) := by
  constructor
  · simp [check_oposs_zpool_iostat, hsec, Entry.interp]
  · simp [parse_oposs_zpool_iostat, List.foldl_append, parseLine, lookup_dictInsert]

/-- Witness for C4: a concrete batch with a valid pool and an ERROR line
with message disk timeout. -/
theorem C4_global_parse_error_witness :
    check_oposs_zpool_iostat "tank" check_default_parameters secC4
        = [.res ⟨.UNKNOWN, "Parse error: " ++ "disk timeout"⟩] ∧
    dictLookup "_parse_error"
        (parse_oposs_zpool_iostat egDecode ([["tank", jsonEmpty]] ++ [["ERROR", "disk timeout"]]))
        = some (.estr "disk timeout") :=
  C4_global_parse_error "tank" check_default_parameters egDecode [["tank", jsonEmpty]]
    "disk timeout" secC4 "disk timeout" (by decide)

/-- C10: on each of the three error branches — recorded global parse error,
item absent from the section, per-pool decode error — the whole check
output is a single UNKNOWN result and no metric at all. -/
theorem C10_error_branches_single_unknown (item : String) (params : Params) (sec : Sect)
    (h : (∃ e, dictLookup "_parse_error" sec = some e)
        ∨ dictLookup item sec = none
        ∨ (∃ m, dictLookup item sec = some (.epool (.errored m)))) :
    ∃ r : CmkResult, r.state = .UNKNOWN ∧
      check_oposs_zpool_iostat item params sec = [.res r] := by
  cases hpe : dictLookup "_parse_error" sec with
  | some e =>
      exact ⟨⟨.UNKNOWN, "Parse error: " ++ e.interp⟩, rfl,
        by simp [check_oposs_zpool_iostat, hpe]⟩
  | none =>
      rcases h with ⟨e, he⟩ | hnone | ⟨m, hm⟩
      · rw [hpe] at he; exact absurd he (by simp)
      · exact ⟨⟨.UNKNOWN, "Pool " ++ item ++ " not found"⟩, rfl,
          by simp [check_oposs_zpool_iostat, hpe, hnone]⟩
      · exact ⟨⟨.UNKNOWN, "Pool " ++ item ++ " error: " ++ m⟩, rfl,
          by simp [check_oposs_zpool_iostat, hpe, hm]⟩

/-- Witness for C10 at the global-parse-error section. -/
theorem C10_error_branches_single_unknown_witness :
    ∃ r : CmkResult, r.state = .UNKNOWN ∧
      check_oposs_zpool_iostat "tank" check_default_parameters secC4 = [.res r] :=
  C10_error_branches_single_unknown "tank" check_default_parameters secC4
    (Or.inl ⟨.estr "disk timeout", by decide⟩)

/-- A parse-loop step on a non-ERROR line only touches that line's own
identifier key. -/
theorem lookup_parseLine_other (jl : String → Decoded) (acc : Sect)
    (ident payload : String) (rest : List String) (k2 : String)
    (hid : ident ≠ "ERROR") (hk2 : k2 ≠ ident) :
    dictLookup k2 (parseLine jl acc (ident :: payload :: rest)) = dictLookup k2 acc := by
  simp only [parseLine]
  rw [if_neg hid]
  cases jl payload with
  | dict d => rw [lookup_dictInsert, if_neg hk2]
  | nondict => rw [lookup_dictInsert, if_neg hk2]
  | fail e2 => rw [lookup_dictInsert, if_neg hk2]

/-- C5: a payload that fails to decode marks only its own pool. That pool
reports a single UNKNOWN whose message carries the JSON decode-failure
indicator, while the check output of every sibling pool is the same as with
any replacement payload in that line (in particular a well-formed one) and
the same as with the line absent altogether. -/
theorem C5_malformed_payload_isolation
    (jl : String → Decoded) (pre post : List (List String))
    (tank p pay1 pay2 e : String) (params : Params)
    (htank1 : tank ≠ "ERROR") (htank2 : tank ≠ "_parse_error")
    (hjl : jl pay1 = .fail e) (hp : p ≠ tank)
    (hpost : ∀ ident payload rest, (ident :: payload :: rest) ∈ post → ident ≠ tank)
    (hpe : dictLookup "_parse_error"
        (parse_oposs_zpool_iostat jl (pre ++ [tank, pay1] :: post)) = none) :
    check_oposs_zpool_iostat tank params
        (parse_oposs_zpool_iostat jl (pre ++ [tank, pay1] :: post))
      = [.res ⟨.UNKNOWN, "Pool " ++ tank ++ " error: " ++ ("JSON parsing failed: " ++ e)⟩] ∧
    check_oposs_zpool_iostat p params
        (parse_oposs_zpool_iostat jl (pre ++ [tank, pay1] :: post))
      = check_oposs_zpool_iostat p params
        (parse_oposs_zpool_iostat jl (pre ++ [tank, pay2] :: post)) ∧
    check_oposs_zpool_iostat p params
        (parse_oposs_zpool_iostat jl (pre ++ [tank, pay1] :: post))
      = check_oposs_zpool_iostat p params (parse_oposs_zpool_iostat jl (pre ++ post)) := by
  have hpef : ("_parse_error" : String) ≠ tank := fun h => htank2 h.symm
  have hpf : p ≠ tank := hp
  have hmid : ∀ pay : String, parse_oposs_zpool_iostat jl (pre ++ [tank, pay] :: post)
      = post.foldl (parseLine jl)
          (parseLine jl (parse_oposs_zpool_iostat jl pre) [tank, pay]) := by
    intro pay
    simp [parse_oposs_zpool_iostat, List.foldl_append]
  have hparse1 : parseLine jl (parse_oposs_zpool_iostat jl pre) [tank, pay1]
      = dictInsert tank (.epool (.errored ("JSON parsing failed: " ++ e)))
          (parse_oposs_zpool_iostat jl pre) := by
    simp [parseLine, htank1, hjl]
  have htanklookup : dictLookup tank
      (parse_oposs_zpool_iostat jl (pre ++ [tank, pay1] :: post))
      = some (.epool (.errored ("JSON parsing failed: " ++ e))) := by
    rw [hmid pay1, lookup_foldl_parseLine_skip jl post tank htank2 _ hpost, hparse1,
      lookup_dictInsert, if_pos rfl]
  have hagree12 : ∀ k2, k2 ≠ tank →
      dictLookup k2 (parse_oposs_zpool_iostat jl (pre ++ [tank, pay1] :: post))
        = dictLookup k2 (parse_oposs_zpool_iostat jl (pre ++ [tank, pay2] :: post)) := by
    intro k2 hk2
    rw [hmid pay1, hmid pay2]
    refine foldl_parseLine_agree jl post tank _ _ ?_ k2 hk2
    intro k3 hk3
    rw [lookup_parseLine_other jl _ tank pay1 [] k3 htank1 hk3,
      lookup_parseLine_other jl _ tank pay2 [] k3 htank1 hk3]
  have hagree10 : ∀ k2, k2 ≠ tank →
      dictLookup k2 (parse_oposs_zpool_iostat jl (pre ++ [tank, pay1] :: post))
        = dictLookup k2 (parse_oposs_zpool_iostat jl (pre ++ post)) := by
    intro k2 hk2
    rw [hmid pay1]
    have hsplit : parse_oposs_zpool_iostat jl (pre ++ post)
        = post.foldl (parseLine jl) (parse_oposs_zpool_iostat jl pre) := by
      simp [parse_oposs_zpool_iostat, List.foldl_append]
    rw [hsplit]
    refine foldl_parseLine_agree jl post tank _ _ ?_ k2 hk2
    intro k3 hk3
    rw [lookup_parseLine_other jl _ tank pay1 [] k3 htank1 hk3]
  refine ⟨?_, ?_, ?_⟩
  · simp [check_oposs_zpool_iostat, hpe, htanklookup]
  · exact check_congr p params _ _ (hagree12 "_parse_error" hpef) (hagree12 p hpf)
  · exact check_congr p params _ _ (hagree10 "_parse_error" hpef) (hagree10 p hpf)

/-- Witness for C5: the pool tank with the literal not-json payload next to
a sibling pool rpool with the empty-object payload. -/
theorem C5_malformed_payload_isolation_witness :
    check_oposs_zpool_iostat "tank" check_default_parameters
        (parse_oposs_zpool_iostat egDecode ([] ++ ["tank", "not-json"] :: [["rpool", jsonEmpty]]))
      = [.res ⟨.UNKNOWN,
          "Pool " ++ "tank" ++ " error: " ++ ("JSON parsing failed: " ++ "Expecting value")⟩] ∧
    check_oposs_zpool_iostat "rpool" check_default_parameters
        (parse_oposs_zpool_iostat egDecode ([] ++ ["tank", "not-json"] :: [["rpool", jsonEmpty]]))
      = check_oposs_zpool_iostat "rpool" check_default_parameters
        (parse_oposs_zpool_iostat egDecode ([] ++ ["tank", jsonEmpty] :: [["rpool", jsonEmpty]])) ∧
    check_oposs_zpool_iostat "rpool" check_default_parameters
        (parse_oposs_zpool_iostat egDecode ([] ++ ["tank", "not-json"] :: [["rpool", jsonEmpty]]))
      = check_oposs_zpool_iostat "rpool" check_default_parameters
        (parse_oposs_zpool_iostat egDecode ([] ++ [["rpool", jsonEmpty]])) :=
  C5_malformed_payload_isolation egDecode [] [["rpool", jsonEmpty]]
    "tank" "rpool" "not-json" jsonEmpty "Expecting value" check_default_parameters
    (by decide) (by decide) (by decide) (by decide)
    (by
      intro ident payload rest hm
      rw [List.mem_singleton] at hm
      injection hm with h1 h2
      subst h1
      decide)
    (by decide)

/-- The discovery condition emits exactly the keys without a leading
underscore whose entry is a cleanly decoded dict. -/
theorem discoverEntry_eq_some (k : String) (e : Entry) (name : String) :
    discoverEntry (k, e) = some name ↔
      k = name ∧ pyStartswith k "_" = false ∧ ∃ d, e = .epool (.ok d) := by
  by_cases hs : pyStartswith k "_"
  · simp [discoverEntry, hs]
  · cases e with
    | estr s => simp [discoverEntry, hs]
    | epool pd =>
        cases pd with
        | ok d0 => simp [discoverEntry, hs, eq_comm]
        | errored m => simp [discoverEntry, hs]

/-- With duplicate-free keys (the shape every Python dict has), a lookup
returning a value is the same as the pair being in the list. -/
theorem dictLookup_eq_some_iff_mem {α : Type} (s : List (String × α))
    (hnd : (s.map Prod.fst).Nodup) (k : String) (v : α) :
    dictLookup k s = some v ↔ (k, v) ∈ s := by
  induction s with
  | nil => simp [dictLookup]
  | cons p rest ih =>
      obtain ⟨k1, v1⟩ := p
      rw [List.map_cons, List.nodup_cons] at hnd
      obtain ⟨hk1, hrest⟩ := hnd
      by_cases h1 : k = k1
      · subst h1
        constructor
        · intro h
          simp only [dictLookup, if_pos rfl] at h
          injection h with h
          rw [← h]
          exact List.mem_cons_self _ _
        · intro hmem
          rcases List.mem_cons.mp hmem with heq | hmem2
          · have hv : v = v1 := congrArg Prod.snd heq
            simp [dictLookup, hv]
          · exact absurd (List.mem_map_of_mem Prod.fst hmem2) hk1
      · simp only [dictLookup, if_neg h1, ih hrest, List.mem_cons]
        constructor
        · exact fun hmem => Or.inr hmem
        · rintro (heq | hmem)
          · exact absurd (congrArg Prod.fst heq) h1
          · exact hmem

/-- Membership in the keys of a dict after an assignment. -/
theorem mem_keys_dictInsert (k a : String) (v : Entry) (s : Sect) :
    a ∈ (dictInsert k v s).map Prod.fst ↔ a = k ∨ a ∈ s.map Prod.fst := by
  induction s with
  | nil => simp [dictInsert]
  | cons p rest ih =>
      obtain ⟨k1, v1⟩ := p
      by_cases h1 : k1 = k
      · subst h1
        simp [dictInsert]
        try tauto
      · simp [dictInsert, h1, ih]
        try tauto

/-- Dict assignment preserves duplicate-free keys. -/
theorem nodup_keys_dictInsert (k : String) (v : Entry) (s : Sect)
    (h : (s.map Prod.fst).Nodup) : ((dictInsert k v s).map Prod.fst).Nodup := by
  induction s with
  | nil => simp [dictInsert]
  | cons p rest ih =>
      obtain ⟨k1, v1⟩ := p
      rw [List.map_cons, List.nodup_cons] at h
      obtain ⟨hk1, hrest⟩ := h
      by_cases h1 : k1 = k
      · subst h1
        rw [show dictInsert k1 v ((k1, v1) :: rest) = (k1, v) :: rest from by
          simp [dictInsert]]
        rw [List.map_cons, List.nodup_cons]
        exact ⟨hk1, hrest⟩
      · rw [show dictInsert k v ((k1, v1) :: rest) = (k1, v1) :: dictInsert k v rest from by
          simp [dictInsert, h1]]
        rw [List.map_cons, List.nodup_cons]
        refine ⟨?_, ih hrest⟩
        rw [mem_keys_dictInsert]
        rintro (h2 | hmem)
        · exact h1 h2
        · exact hk1 hmem

/-- Every section the parser builds has duplicate-free keys. -/
theorem nodup_keys_parse (jl : String → Decoded) (st : List (List String)) :
    ((parse_oposs_zpool_iostat jl st).map Prod.fst).Nodup := by
  have hstep : ∀ acc : Sect, (acc.map Prod.fst).Nodup →
      ((st.foldl (parseLine jl) acc).map Prod.fst).Nodup := by
    induction st with
    | nil => intro acc h; exact h
    | cons l st ih =>
        intro acc h
        refine ih _ ?_
        match l with
        | [] => exact h
        | [x] => exact h
        | ident :: payload :: rest =>
            simp only [parseLine]
            by_cases hid : ident = "ERROR"
            · rw [if_pos hid]
              exact nodup_keys_dictInsert _ _ _ h
            · rw [if_neg hid]
              cases jl payload with
              | dict d => exact nodup_keys_dictInsert _ _ _ h
              | nondict => exact nodup_keys_dictInsert _ _ _ h
              | fail e => exact nodup_keys_dictInsert _ _ _ h
  exact hstep [] (by simp)

/-- Discovery membership over a duplicate-free section. -/
theorem mem_discover_iff (s : Sect) (hnd : (s.map Prod.fst).Nodup) (name : String) :
    name ∈ discover_oposs_zpool_iostat s ↔
      pyStartswith name "_" = false ∧
        ∃ d, dictLookup name s = some (.epool (.ok d)) := by
  rw [discover_oposs_zpool_iostat, List.mem_filterMap]
  constructor
  · rintro ⟨⟨k, e⟩, hmem, hde⟩
    obtain ⟨rfl, hs, d, rfl⟩ := (discoverEntry_eq_some k e name).mp hde
    exact ⟨hs, d, (dictLookup_eq_some_iff_mem s hnd k _).mpr hmem⟩
  · rintro ⟨hs, d, hl⟩
    refine ⟨(name, .epool (.ok d)), (dictLookup_eq_some_iff_mem s hnd name _).mp hl, ?_⟩
    exact (discoverEntry_eq_some name _ name).mpr ⟨rfl, hs, d, rfl⟩

/-- C9 (amended): over any parsed section, discovery yields exactly the pool
names that do not begin with an underscore and whose entry has no parse
error (a cleanly decoded dict). -/
theorem C9_discovery_amended (jl : String → Decoded) (st : List (List String))
    (name : String) :
    name ∈ discover_oposs_zpool_iostat (parse_oposs_zpool_iostat jl st) ↔
      pyStartswith name "_" = false ∧
        ∃ d, dictLookup name (parse_oposs_zpool_iostat jl st)
          = some (.epool (.ok d)) :=
  mem_discover_iff _ (nodup_keys_parse jl st) name

/-- Counterexample for C9 as stated: the identifier _weird parses cleanly
(its entry has no parse error of any kind — there is not even a global
error in the section), yet discovery emits no service for it, because the
code also filters on a leading underscore. -/
theorem C9_discovery_counterexample :
    dictLookup "_weird" (parse_oposs_zpool_iostat egDecode [["_weird", jsonEmpty]])
        = some (.epool (.ok [])) ∧
    discover_oposs_zpool_iostat (parse_oposs_zpool_iostat egDecode [["_weird", jsonEmpty]])
        = [] := by
  exact ⟨by decide, by decide⟩

/-- C2 (amended): with truthy disk wait levels, the composite disk wait
metric equals the maximum of the two disk wait counters and is evaluated if
and only if both counters are present and their maximum is positive; with
either counter absent, or both present but the maximum not positive,
nothing is emitted for the composite. -/
theorem C2_disk_wait_composite_amended (lp : LevelsParam) (d : List (String × ℚ))
    (r w : ℚ) (hlp : lp.truthy = true) :
    (dictLookup "disk_read_wait" d = some r → dictLookup "disk_write_wait" d = some w →
        0 < max r w →
        diskWaitCompositeBlock lp d
          = _check_wait_time_metric (some (max r w)) lp "disk_wait_max" "Disk wait time") ∧
    (dictLookup "disk_read_wait" d = none ∨ dictLookup "disk_write_wait" d = none →
        diskWaitCompositeBlock lp d = []) ∧
    (dictLookup "disk_read_wait" d = some r → dictLookup "disk_write_wait" d = some w →
        max r w ≤ 0 → diskWaitCompositeBlock lp d = []) := by
  refine ⟨?_, ?_, ?_⟩
  · intro h1 h2 h3
    simp [diskWaitCompositeBlock, hlp, h1, h2, h3]
  · intro h
    rcases h with h | h
    · simp [diskWaitCompositeBlock, hlp, h]
    · cases h1 : dictLookup "disk_read_wait" d <;>
        simp [diskWaitCompositeBlock, hlp, h1, h]
  · intro h1 h2 h3
    simp [diskWaitCompositeBlock, hlp, h1, h2, not_lt.mpr h3]

/-- Witness for the amended C2 at counters 5 and 3 with fixed levels. -/
theorem C2_disk_wait_composite_amended_witness :
    (dictLookup "disk_read_wait" [("disk_read_wait", (5:ℚ)), ("disk_write_wait", 3)] = some 5 →
      dictLookup "disk_write_wait" [("disk_read_wait", (5:ℚ)), ("disk_write_wait", 3)] = some 3 →
      0 < max (5:ℚ) 3 →
      diskWaitCompositeBlock (.fixedL 1 2) [("disk_read_wait", 5), ("disk_write_wait", 3)]
        = _check_wait_time_metric (some (max 5 3)) (.fixedL 1 2) "disk_wait_max" "Disk wait time") ∧
    (dictLookup "disk_read_wait" [("disk_read_wait", (5:ℚ)), ("disk_write_wait", 3)] = none ∨
      dictLookup "disk_write_wait" [("disk_read_wait", (5:ℚ)), ("disk_write_wait", 3)] = none →
      diskWaitCompositeBlock (.fixedL 1 2) [("disk_read_wait", 5), ("disk_write_wait", 3)] = []) ∧
    (dictLookup "disk_read_wait" [("disk_read_wait", (5:ℚ)), ("disk_write_wait", 3)] = some 5 →
      dictLookup "disk_write_wait" [("disk_read_wait", (5:ℚ)), ("disk_write_wait", 3)] = some 3 →
      max (5:ℚ) 3 ≤ 0 →
      diskWaitCompositeBlock (.fixedL 1 2) [("disk_read_wait", 5), ("disk_write_wait", 3)] = []) :=
  C2_disk_wait_composite_amended (.fixedL 1 2)
    [("disk_read_wait", 5), ("disk_write_wait", 3)] 5 3 (by decide)

/-- Counterexample for C2 as stated: both disk wait counters are present
(both zero) and the composite levels are configured, yet the check emits no
Result at all and no disk_wait_max_s metric — the composite is not
evaluated because the code additionally requires a positive maximum. -/
theorem C2_disk_wait_composite_counterexample :
    dictLookup "tank" secC2
        = some (.epool (.ok [("disk_read_wait", 0), ("disk_write_wait", 0)])) ∧
    pC2.disk_wait_levels = .fixedL 1 2 ∧
    ((check_oposs_zpool_iostat "tank" pC2 secC2).all fun o =>
        match o with
        | .res _ => false
        | .met m => m.name != "disk_wait_max_s") = true := by
  refine ⟨by decide, rfl, ?_⟩
  simp [check_oposs_zpool_iostat, secC2, pC2, parse_oposs_zpool_iostat, parseLine,
    egDecode, dictInsert, checkPoolBody, storageBlock, check_levels, _check_wait_time_metric,
    checkQueueDepthMetric, diskWaitCompositeBlock, LevelsParam.truthy, levelsStateUpper,
    jsonZeroDiskWaits, jsonEmpty, jsonScenarioA, dictLookup]

/-- C3 (amended): an absent wait-time or queue-depth key yields exactly one
metric carrying the NaN sentinel (distinct from the number 0) and no Result
at all — no UNKNOWN severity, and nothing that could contribute to overall
severity — while a counter read with a 0 default (read_ops, write_ops,
read_bytes, write_bytes, alloc, free) is silently coerced to 0 when
absent. -/
theorem C3_missing_metric_amended (lp : LevelsParam) (metric_name label k : String)
    (d : List (String × ℚ)) (h : dictLookup k d = none) :
    _check_wait_time_metric none lp metric_name label
        = [.met ⟨metric_name ++ "_s", .nan⟩] ∧
    checkQueueDepthMetric none lp metric_name = [.met ⟨metric_name, .nan⟩] ∧
    Val.nan ≠ Val.num 0 ∧
    (dictLookup k d).getD 0 = 0 := by
  refine ⟨rfl, rfl, by simp, by rw [h]; rfl⟩

/-- Witness for the amended C3 with the read_wait and read_ops keys absent
from an empty counters dict. -/
theorem C3_missing_metric_amended_witness :
    _check_wait_time_metric none .npar "read_wait" "Read wait time"
        = [.met ⟨"read_wait" ++ "_s", .nan⟩] ∧
    checkQueueDepthMetric none .npar "syncq_read_pend" = [.met ⟨"syncq_read_pend", .nan⟩] ∧
    Val.nan ≠ Val.num 0 ∧
    (dictLookup "read_ops" ([] : List (String × ℚ))).getD 0 = 0 := by
  have h := C3_missing_metric_amended .npar "read_wait" "Read wait time" "read_ops" [] rfl
  exact ⟨h.1, C3_missing_metric_amended .npar "syncq_read_pend" "Read wait time" "read_ops" []
    rfl |>.2.1, h.2.2.1, h.2.2.2⟩

set_option maxHeartbeats 2000000 in
/-- Counterexample for C3 as stated: on an otherwise-valid snapshot with
every recognized key absent, the check emits no Result whatsoever — in
particular no UNKNOWN for the missing metrics — and the basic counter
read_ops is silently coerced to 0 in its emitted metric entry. -/
theorem C3_missing_metric_counterexample :
    dictLookup "tank" secC3 = some (.epool (.ok [])) ∧
    ((check_oposs_zpool_iostat "tank" pNone secC3).all fun o =>
        match o with
        | .res _ => false
        | .met _ => true) = true ∧
    metricValueOf (check_oposs_zpool_iostat "tank" pNone secC3) "read_ops"
        = some (.num 0) := by
  refine ⟨by decide, ?_, ?_⟩
  · simp [check_oposs_zpool_iostat, secC3, pNone, parse_oposs_zpool_iostat, parseLine,
      egDecode, dictInsert, checkPoolBody, storageBlock, check_levels, _check_wait_time_metric,
      checkQueueDepthMetric, diskWaitCompositeBlock, LevelsParam.truthy, levelsStateUpper,
      jsonZeroDiskWaits, jsonEmpty, jsonScenarioA, dictLookup]
  · simp [check_oposs_zpool_iostat, secC3, pNone, parse_oposs_zpool_iostat, parseLine,
      egDecode, dictInsert, checkPoolBody, storageBlock, check_levels, _check_wait_time_metric,
      checkQueueDepthMetric, diskWaitCompositeBlock, LevelsParam.truthy, levelsStateUpper,
      jsonZeroDiskWaits, jsonEmpty, jsonScenarioA, dictLookup, metricValueOf]

/-- With a positive total, the storage block is the storage Result followed
by the storage metric, for every storage levels value. -/
theorem storageBlock_pos (sl : LevelsParam) (alloc free : ℚ) (h : alloc + free > 0) :
    storageBlock sl alloc free
      = .res ⟨levelsStateUpper (alloc / (alloc + free) * 100) sl,
          "Storage utilization" ++ ": " ++ renderPercent (alloc / (alloc + free) * 100)⟩
        :: [.met ⟨"storage_used_percent", .num (alloc / (alloc + free) * 100)⟩] := by
  rw [storageBlock, if_pos h]
  rfl

set_option maxHeartbeats 2000000 in
/-- C7: whenever alloc + free is positive the storage utilization check
comes first and unconditionally — the first yielded object is the storage
Result, present for every parameter set whether or not a storage threshold
is configured — and in scenario A (alloc 800, free 200, fixed levels 80/90)
the utilization is exactly 80 percent and classifies as WARN. -/
theorem C7_storage_first_unconditional (item : String) (params : Params) (sec : Sect)
    (d : List (String × ℚ))
    (hpe : dictLookup "_parse_error" sec = none)
    (hitem : dictLookup item sec = some (.epool (.ok d)))
    (htotal : (dictLookup "alloc" d).getD 0 + (dictLookup "free" d).getD 0 > 0) :
    (∃ rest, check_oposs_zpool_iostat item params sec
        = .res ⟨levelsStateUpper
              ((dictLookup "alloc" d).getD 0
                / ((dictLookup "alloc" d).getD 0 + (dictLookup "free" d).getD 0) * 100)
              params.storage_levels,
            "Storage utilization" ++ ": "
              ++ renderPercent ((dictLookup "alloc" d).getD 0
                / ((dictLookup "alloc" d).getD 0 + (dictLookup "free" d).getD 0) * 100)⟩
          :: rest) ∧
    ((800:ℚ) / (800 + 200) * 100) = 80 ∧
    levelsStateUpper ((800:ℚ) / (800 + 200) * 100) (.fixedL 80 90) = .WARN := by
  refine ⟨?_, by norm_num, ?_⟩
  · simp only [check_oposs_zpool_iostat, hpe, hitem]
    rw [checkPoolBody]
    rw [storageBlock_pos _ _ _ htotal]
    simp only [List.cons_append, List.append_assoc, List.nil_append]
    exact ⟨_, rfl⟩
  · have h80 : ((800:ℚ) / (800 + 200) * 100) = 80 := by norm_num
    rw [h80]
    norm_num [levelsStateUpper]

/-- Witness for C7 on the parsed scenario A section with the default
parameters. -/
theorem C7_storage_first_unconditional_witness :
    (∃ rest, check_oposs_zpool_iostat "tank" check_default_parameters secC7
        = .res ⟨levelsStateUpper
              ((dictLookup "alloc" [("alloc", (800:ℚ)), ("free", 200), ("read_ops", 50)]).getD 0
                / ((dictLookup "alloc" [("alloc", (800:ℚ)), ("free", 200), ("read_ops", 50)]).getD 0
                  + (dictLookup "free" [("alloc", (800:ℚ)), ("free", 200), ("read_ops", 50)]).getD 0) * 100)
              check_default_parameters.storage_levels,
            "Storage utilization" ++ ": "
              ++ renderPercent ((dictLookup "alloc" [("alloc", (800:ℚ)), ("free", 200), ("read_ops", 50)]).getD 0
                / ((dictLookup "alloc" [("alloc", (800:ℚ)), ("free", 200), ("read_ops", 50)]).getD 0
                  + (dictLookup "free" [("alloc", (800:ℚ)), ("free", 200), ("read_ops", 50)]).getD 0) * 100)⟩
          :: rest) ∧
    ((800:ℚ) / (800 + 200) * 100) = 80 ∧
    levelsStateUpper ((800:ℚ) / (800 + 200) * 100) (.fixedL 80 90) = .WARN :=
  C7_storage_first_unconditional "tank" check_default_parameters secC7
    [("alloc", 800), ("free", 200), ("read_ops", 50)]
    (by decide) (by decide)
    (by
      have h1 : dictLookup "alloc" [("alloc", (800:ℚ)), ("free", 200), ("read_ops", 50)]
          = some 800 := by decide
      have h2 : dictLookup "free" [("alloc", (800:ℚ)), ("free", 200), ("read_ops", 50)]
          = some 200 := by decide
      rw [h1, h2]
      norm_num)
